import Mathlib

/-!
Shallow embedding of the ClawX secure credential store
(`src/electron/utils/secure-storage.ts`) and auto-update controller
(`src/electron/main/updater.ts`), with theorems settling the behavioural
claims about them.

JavaScript records (`Record<string, T>`) are modelled as association lists;
property assignment, `delete` and `in` become `setEntry`, `eraseEntry` and
`lookupEntry`.  The external primitives (Electron `safeStorage`, `Buffer`
base64 codecs) are parameters of the embedding gathered in `Crypto`.
-/

namespace ClawX

/-! ## Association-list model of JavaScript records -/

/-- Lookup of `record[key]`: `some v` when the property exists, `none` for
`undefined`. -/
def lookupEntry {α : Type} : List (String × α) → String → Option α
  | [], _ => none
  | (k, v) :: rest, id => if k = id then some v else lookupEntry rest id

/-- Property assignment `record[key] = v`: overwrites an existing binding,
otherwise appends a fresh one. -/
def setEntry {α : Type} : List (String × α) → String → α → List (String × α)
  | [], id, v => [(id, v)]
  | (k, w) :: rest, id, v =>
    if k = id then (id, v) :: rest else (k, w) :: setEntry rest id v

/-- `delete record[key]`: removes the binding for `key`. -/
def eraseEntry {α : Type} : List (String × α) → String → List (String × α)
  | [], _ => []
  | (k, w) :: rest, id =>
    if k = id then eraseEntry rest id else (k, w) :: eraseEntry rest id

/-! ## Secure storage: data model -/

/-- The `encryptedKeys` record of the `clawx-secure` store: provider id to
stored base64 string. -/
abbrev KeyStore := List (String × String)

/-- External primitives used by `secure-storage.ts`, treated as parameters:
Electron `safeStorage` and node `Buffer` base64 codecs.  `encryptString`
is `safeStorage.encryptString` composed with `Buffer.toString('base64')`;
`decryptString` is `Buffer.from(-, 'base64')` composed with
`safeStorage.decryptString`, returning `Except.error` when the latter throws;
`b64encode` is `Buffer.from(utf8).toString('base64')` and `b64decode` its
reverse reading. -/
structure Crypto where
  encryptionAvailable : Bool
  encryptString : String → String
  decryptString : String → Except String String
  b64encode : String → String
  b64decode : String → String

/-- Provider type union of `ProviderConfig.type`. -/
inductive ProviderType where
  | anthropic
  | openai
  | google
  | openrouter
  | ollama
  | custom
deriving DecidableEq, Repr

/-- `ProviderConfig` of `secure-storage.ts`. -/
structure ProviderConfig where
  id : String
  name : String
  type : ProviderType
  baseUrl : Option String := none
  model : Option String := none
  enabled : Bool
  createdAt : String
  updatedAt : String
deriving DecidableEq, Repr

/-- The `clawx-providers` store: the `providers` record plus the optional
`defaultProvider` pointer. -/
structure ProviderStore where
  providers : List (String × ProviderConfig)
  defaultProvider : Option String := none
deriving DecidableEq, Repr

/-! ## Secure storage: key operations -/

/-- `storeApiKey(providerId, apiKey)`: with encryption unavailable the key is
stored as `Buffer.from(apiKey).toString('base64')`; otherwise as the base64
of `safeStorage.encryptString(apiKey)`.  Returns the success flag and the
updated `encryptedKeys` record. -/
def storeApiKey (c : Crypto) (ks : KeyStore) (providerId apiKey : String) :
    Bool × KeyStore :=
  if c.encryptionAvailable = false then
    (true, setEntry ks providerId (c.b64encode apiKey))
  else
    (true, setEntry ks providerId (c.encryptString apiKey))

/-- `getApiKey(providerId)`: looks up `keys[providerId]`; the guard
`if (!encryptedBase64) return null` makes both a missing entry and the empty
string yield `null`.  Decryption failure is caught and yields `null`. -/
def getApiKey (c : Crypto) (ks : KeyStore) (providerId : String) :
    Option String :=
  match lookupEntry ks providerId with
  | none => none
  | some encryptedBase64 =>
    if encryptedBase64 = "" then none
    else if c.encryptionAvailable = false then
      some (c.b64decode encryptedBase64)
    else
      match c.decryptString encryptedBase64 with
      | Except.ok plain => some plain
      | Except.error _ => none

/-- `deleteApiKey(providerId)`: deletes the binding and reports success. -/
def deleteApiKey (ks : KeyStore) (providerId : String) : Bool × KeyStore :=
  (true, eraseEntry ks providerId)

/-- `hasApiKey(providerId)`: the JavaScript `providerId in keys` test, true
whenever the property exists (also for an empty stored string). -/
def hasApiKey (ks : KeyStore) (providerId : String) : Bool :=
  (lookupEntry ks providerId).isSome

/-- `listStoredKeyIds()`: `Object.keys(keys)`. -/
def listStoredKeyIds (ks : KeyStore) : List String :=
  ks.map Prod.fst

/-! ## Secure storage: provider configuration operations -/

/-- `saveProvider(config)`. -/
def saveProvider (ps : ProviderStore) (config : ProviderConfig) :
    ProviderStore :=
  { ps with providers := setEntry ps.providers config.id config }

/-- `getProvider(providerId)`: `providers[providerId] || null`. -/
def getProvider (ps : ProviderStore) (providerId : String) :
    Option ProviderConfig :=
  lookupEntry ps.providers providerId

/-- `getDefaultProvider()`. -/
def getDefaultProvider (ps : ProviderStore) : Option String :=
  ps.defaultProvider

/-- `setDefaultProvider(providerId)`. -/
def setDefaultProvider (ps : ProviderStore) (providerId : String) :
    ProviderStore :=
  { ps with defaultProvider := some providerId }

/-- Ordered actions performed by `deleteProvider`, recording that the API key
is deleted before the provider config, and the default pointer cleared last
when it referenced this id. -/
inductive StoreAction where
  | deleteKey (id : String)
  | deleteConfig (id : String)
  | clearDefault
deriving DecidableEq, Repr

/-- `deleteProvider(providerId)`: deletes the API key first, then the config,
then clears `defaultProvider` when it equals this id.  Returns the success
flag with the updated key store and provider store. -/
def deleteProvider (ks : KeyStore) (ps : ProviderStore)
    (providerId : String) : Bool × KeyStore × ProviderStore :=
  let ks' := (deleteApiKey ks providerId).2
  let providers' := eraseEntry ps.providers providerId
  let default' :=
    if ps.defaultProvider = some providerId then none else ps.defaultProvider
  (true, ks', { providers := providers', defaultProvider := default' })

/-- The sequence of storage actions `deleteProvider` performs, in source
order: `deleteApiKey`, then the config `delete`, then (conditionally) the
`defaultProvider` clear. -/
def deleteProviderTrace (ps : ProviderStore) (providerId : String) :
    List StoreAction :=
  [StoreAction.deleteKey providerId, StoreAction.deleteConfig providerId] ++
    (if ps.defaultProvider = some providerId then [StoreAction.clearDefault]
     else [])

/-! ## Secure storage: masked key display -/

/-- The inline masking computation of `getProviderWithKeyInfo` and
`getAllProvidersWithKeyInfo`: for length above 12, `substring(0, 4)` then
`'*'.repeat(length - 8)` then `substring(length - 4)`; otherwise
`'*'.repeat(length)`. -/
def maskKey (apiKey : String) : String :=
  if apiKey.length > 12 then
    apiKey.take 4 ++ String.mk (List.replicate (apiKey.length - 8) '*') ++
      apiKey.drop (apiKey.length - 4)
  else
    String.mk (List.replicate apiKey.length '*')

/-- Result row of `getProviderWithKeyInfo`: the provider config spread
together with `hasKey` and `keyMasked`. -/
structure ProviderWithKeyInfo extends ProviderConfig where
  hasKey : Bool
  keyMasked : Option String
deriving DecidableEq, Repr

/-- `getProviderWithKeyInfo(providerId)`: `null` when the provider is absent;
otherwise `hasKey := !!apiKey` and `keyMasked` computed only when `apiKey` is
truthy (non-null and non-empty). -/
def getProviderWithKeyInfo (c : Crypto) (ks : KeyStore) (ps : ProviderStore)
    (providerId : String) : Option ProviderWithKeyInfo :=
  match getProvider ps providerId with
  | none => none
  | some provider =>
    match getApiKey c ks providerId with
    | none => some { toProviderConfig := provider, hasKey := false,
                     keyMasked := none }
    | some apiKey =>
      if apiKey = "" then
        some { toProviderConfig := provider, hasKey := false,
               keyMasked := none }
      else
        some { toProviderConfig := provider, hasKey := true,
               keyMasked := some (maskKey apiKey) }

/-! ## Secure storage: exception-aware model

The functions above give the semantics when the backing store behaves; the
definitions below additionally model the backing store access
(`await getStore()` plus `s.get(...)`) as an `Except` that may fail, to
capture which wrappers have a `try/catch` in the source and which do not. -/

/-- `storeApiKey` with a fallible backing store: the `try/catch` converts a
failure to `false`. -/
def storeApiKeyE (c : Crypto) (st : Except String KeyStore)
    (providerId apiKey : String) : Except String (Bool × KeyStore) :=
  match st with
  | Except.error _ => Except.ok (false, [])
  | Except.ok ks => Except.ok (storeApiKey c ks providerId apiKey)

/-- `getApiKey` with a fallible backing store: the `try/catch` converts a
failure to `null`. -/
def getApiKeyE (c : Crypto) (st : Except String KeyStore)
    (providerId : String) : Except String (Option String) :=
  match st with
  | Except.error _ => Except.ok none
  | Except.ok ks => Except.ok (getApiKey c ks providerId)

/-- `deleteApiKey` with a fallible backing store: the `try/catch` converts a
failure to `false`. -/
def deleteApiKeyE (st : Except String KeyStore) (providerId : String) :
    Except String Bool :=
  match st with
  | Except.error _ => Except.ok false
  | Except.ok _ => Except.ok true

/-- `deleteProvider` with fallible backing stores: the whole body sits in a
`try/catch`, so a provider-store failure is converted to `false`; a key-store
failure is already swallowed inside `deleteApiKey` (whose ignored success
flag is `false` then), after which `deleteProvider` proceeds and reports
`true`.  Either way no failure propagates to the caller. -/
def deleteProviderE (kst : Except String KeyStore)
    (pst : Except String ProviderStore) (providerId : String) :
    Except String Bool :=
  match kst, pst with
  | _, Except.error _ => Except.ok false
  | Except.error _, Except.ok _ => Except.ok true
  | Except.ok ks, Except.ok ps => Except.ok (deleteProvider ks ps providerId).1

/-- `hasApiKey` with a fallible backing store: the source has no `try/catch`
here, so a backing-store failure propagates to the caller. -/
def hasApiKeyE (st : Except String KeyStore) (providerId : String) :
    Except String Bool :=
  match st with
  | Except.error e => Except.error e
  | Except.ok ks => Except.ok (hasApiKey ks providerId)

/-- `listStoredKeyIds` with a fallible backing store: the source has no
`try/catch` here, so a backing-store failure propagates to the caller. -/
def listStoredKeyIdsE (st : Except String KeyStore) :
    Except String (List String) :=
  match st with
  | Except.error e => Except.error e
  | Except.ok ks => Except.ok (listStoredKeyIds ks)

/-! ## Update controller: data model

Embedding of `AppUpdater` (`src/electron/main/updater.ts`).  The payload
types of `electron-updater` are opaque to this code, which only stores and
forwards them; they are modelled as records with representative fields.
`ProgressInfo` carries numbers the controller never computes with, modelled
as naturals. -/

/-- The `status` union of the `UpdateStatus` interface. -/
inductive StatusKind where
  | idle
  | checking
  | available
  | notAvailable
  | downloading
  | downloaded
  | error
deriving DecidableEq, Repr

/-- Version metadata payload (`electron-updater`'s `UpdateInfo`), opaque to
the controller. -/
structure UpdateInfo where
  version : String
deriving DecidableEq, Repr

/-- Download progress payload (`electron-updater`'s `ProgressInfo`), opaque
to the controller. -/
structure ProgressInfo where
  percent : Nat
  transferred : Nat
  total : Nat
  bytesPerSecond : Nat
deriving DecidableEq, Repr

/-- The `UpdateStatus` record: one status plus optional `info`, `progress`
and `error` fields. -/
structure UpdateStatus where
  status : StatusKind
  info : Option UpdateInfo := none
  progress : Option ProgressInfo := none
  error : Option String := none
deriving DecidableEq, Repr

/-- The initial controller status, `{ status: 'idle' }`. -/
def initialStatus : UpdateStatus := { status := StatusKind.idle }

/-- The `autoUpdater` events the controller listens to in `setupListeners`. -/
inductive UpdaterEvent where
  | checkingForUpdate
  | updateAvailable (info : UpdateInfo)
  | updateNotAvailable (info : UpdateInfo)
  | downloadProgress (progress : ProgressInfo)
  | updateDownloaded (event : UpdateInfo)
  | error (message : String)
deriving DecidableEq, Repr

/-- One listener firing: the partial record the listener passes to
`updateStatus` is spread over the current status
(`this.status = { ...this.status, ...newStatus }`), so exactly the fields
present in the partial are overwritten and every other field is retained. -/
def applyEvent (s : UpdateStatus) : UpdaterEvent → UpdateStatus
  | UpdaterEvent.checkingForUpdate =>
    { s with status := StatusKind.checking }
  | UpdaterEvent.updateAvailable info =>
    { s with status := StatusKind.available, info := some info }
  | UpdaterEvent.updateNotAvailable info =>
    { s with status := StatusKind.notAvailable, info := some info }
  | UpdaterEvent.downloadProgress progress =>
    { s with status := StatusKind.downloading, progress := some progress }
  | UpdaterEvent.updateDownloaded event =>
    { s with status := StatusKind.downloaded, info := some event }
  | UpdaterEvent.error message =>
    { s with status := StatusKind.error, error := some message }

/-- The controller status after a sequence of observed updater events,
starting from a given status. -/
def runFrom (s : UpdateStatus) (es : List UpdaterEvent) : UpdateStatus :=
  List.foldl applyEvent s es

/-- One full `updateStatus` step: assign the merged record to `this.status`,
then `sendToRenderer('update:status-changed', this.status)`.  The send
reaches the renderer only when a main window is attached and not destroyed
(`if (this.mainWindow && !this.mainWindow.isDestroyed())`); `windowAlive`
models that guard.  Returns the new status and the list of channel messages
actually sent. -/
def stepWithEmit (windowAlive : Bool) (s : UpdateStatus) (e : UpdaterEvent) :
    UpdateStatus × List (String × UpdateStatus) :=
  let s' := applyEvent s e
  (s', if windowAlive then [("update:status-changed", s')] else [])

/-- Modelled from the spec: the update-status transition relation of spec
section 4.2, over the labels that correspond to observed updater events
(`check`, `found update`, `none found`, `progress`, `complete`, `failure`).
The spec's `available --download requested--> downloading` edge has no
corresponding observed event: in the source a download request changes no
status, and `downloading` is first entered on a progress event. -/
def specStep (s : StatusKind) (e : UpdaterEvent) (t : StatusKind) : Bool :=
  match e with
  | UpdaterEvent.checkingForUpdate =>
    (s == StatusKind.idle || s == StatusKind.notAvailable ||
      s == StatusKind.error) && t == StatusKind.checking
  | UpdaterEvent.updateAvailable _ =>
    s == StatusKind.checking && t == StatusKind.available
  | UpdaterEvent.updateNotAvailable _ =>
    s == StatusKind.checking && t == StatusKind.notAvailable
  | UpdaterEvent.downloadProgress _ =>
    s == StatusKind.downloading && t == StatusKind.downloading
  | UpdaterEvent.updateDownloaded _ =>
    s == StatusKind.downloading && t == StatusKind.downloaded
  | UpdaterEvent.error _ => t == StatusKind.error

/-! ## Update controller: check request handling -/

/-- Reply shape of the `update:check` IPC handler. -/
structure CheckReply where
  success : Bool
  info : Option UpdateInfo := none
  error : Option String := none
deriving DecidableEq, Repr

/-- `AppUpdater.checkForUpdates`: awaits the underlying
`autoUpdater.checkForUpdates()` (whose outcome, possibly null update info or
a thrown error, is the `underlying` parameter) and catches every failure,
returning `null`; it never rethrows. -/
def checkForUpdates (underlying : Except String (Option UpdateInfo)) :
    Except String (Option UpdateInfo) :=
  match underlying with
  | Except.ok result => Except.ok result
  | Except.error _ => Except.ok none

/-- The `update:check` IPC handler: awaits `updater.checkForUpdates()` in a
`try`, replying `{ success: true, info }`; a thrown error would be caught and
turned into `{ success: false, error }`. -/
def handleUpdateCheck (underlying : Except String (Option UpdateInfo)) :
    CheckReply :=
  match checkForUpdates underlying with
  | Except.ok info => { success := true, info := info }
  | Except.error e => { success := false, error := some e }

/-- The UI request channels handled by `registerUpdateHandlers`, with their
payloads where relevant. -/
inductive UpdateRequest where
  | status
  | version
  | check (underlying : Except String (Option UpdateInfo))
  | download
  | install
  | setChannel (channel : String)
  | setAutoDownload (enable : Bool)

/-- The direct effect of one IPC request handler on the controller status:
every handler reads the status or forwards to the underlying updater, and
none assigns `this.status`, so the status component is returned unchanged.
(Status changes only ever arrive later through observed updater events.) -/
def handleRequest (s : UpdateStatus) (req : UpdateRequest) :
    UpdateStatus × Option CheckReply :=
  match req with
  | UpdateRequest.status => (s, none)
  | UpdateRequest.version => (s, none)
  | UpdateRequest.check underlying => (s, some (handleUpdateCheck underlying))
  | UpdateRequest.download => (s, none)
  | UpdateRequest.install => (s, none)
  | UpdateRequest.setChannel _ => (s, none)
  | UpdateRequest.setAutoDownload _ => (s, none)

/-! ## Concrete environments for witnesses and counterexamples

The external codecs are opaque parameters; the instantiations below satisfy
exactly the algebraic facts the proofs rely on (the codecs are mutually
inverse, encoding preserves non-emptiness, and base64-encoding the empty
string gives the empty string, as `Buffer` does). -/

/-- A `Crypto` with platform encryption available: encryption prepends a
marker character, decryption strips it. -/
def cryptoDemo : Crypto where
  encryptionAvailable := true
  encryptString := fun s => String.mk ('E' :: s.data)
  decryptString := fun s => Except.ok (String.mk s.data.tail)
  b64encode := fun s => s
  b64decode := fun s => s

/-- A `Crypto` with platform encryption unavailable (the base64 plaintext
fallback path); like real base64, the encoding sends `""` to `""`. -/
def cryptoFallback : Crypto where
  encryptionAvailable := false
  encryptString := fun s => s
  decryptString := fun s => Except.ok s
  b64encode := fun s => s
  b64decode := fun s => s

/-- A sample provider configuration. -/
def configDemo : ProviderConfig where
  id := "anthropic-1"
  name := "Anthropic"
  type := ProviderType.anthropic
  enabled := true
  createdAt := "2026-01-01"
  updatedAt := "2026-01-01"

/-- A sample update-info payload. -/
def infoDemo : UpdateInfo := { version := "1.2.3" }

/-- A sample progress payload. -/
def progressDemo : ProgressInfo :=
  { percent := 50, transferred := 500, total := 1000, bytesPerSecond := 100 }

end ClawX

namespace ClawX

/-! ## Association-list lemmas -/

theorem lookupEntry_setEntry_self {α : Type} (l : List (String × α))
    (id : String) (v : α) : lookupEntry (setEntry l id v) id = some v := by
  induction l with
  | nil => simp [setEntry, lookupEntry]
  | cons hd tl ih =>
    obtain ⟨k, w⟩ := hd
    by_cases h : k = id
    · simp [setEntry, h, lookupEntry]
    · simp [setEntry, h, lookupEntry, ih]

theorem lookupEntry_eraseEntry_self {α : Type} (l : List (String × α))
    (id : String) : lookupEntry (eraseEntry l id) id = none := by
  induction l with
  | nil => simp [eraseEntry, lookupEntry]
  | cons hd tl ih =>
    obtain ⟨k, w⟩ := hd
    by_cases h : k = id
    · simp [eraseEntry, h, ih]
    · simp [eraseEntry, h, lookupEntry, ih]

theorem eraseEntry_idem {α : Type} (l : List (String × α)) (id : String) :
    eraseEntry (eraseEntry l id) id = eraseEntry l id := by
  induction l with
  | nil => simp [eraseEntry]
  | cons hd tl ih =>
    obtain ⟨k, w⟩ := hd
    by_cases h : k = id
    · simp [eraseEntry, h, ih]
    · simp [eraseEntry, h, ih]

/-- Shared round-trip core: after `storeApiKey`, `getApiKey` for the same id
returns the plaintext, provided the codec pair in use is inverse, encoding
preserves non-emptiness, and (in fallback mode) the plaintext is non-empty. -/
theorem getApiKey_storeApiKey (c : Crypto) (ks : KeyStore)
    (providerId apiKey : String)
    (hb : ∀ s, c.b64decode (c.b64encode s) = s)
    (hbne : ∀ s, s ≠ "" → c.b64encode s ≠ "")
    (hd : ∀ s, c.decryptString (c.encryptString s) = Except.ok s)
    (hene : ∀ s, c.encryptString s ≠ "")
    (hkey : apiKey ≠ "" ∨ c.encryptionAvailable = true) :
    getApiKey c (storeApiKey c ks providerId apiKey).2 providerId =
      some apiKey := by
  by_cases henc : c.encryptionAvailable = false
  · have hne : apiKey ≠ "" := by
      rcases hkey with h | h
      · exact h
      · rw [h] at henc; exact Bool.noConfusion henc
    simp [storeApiKey, henc, getApiKey, lookupEntry_setEntry_self,
      hbne apiKey hne, hb]
  · simp [storeApiKey, henc, getApiKey, lookupEntry_setEntry_self,
      hene apiKey, hd]

/-! ## Claim C1 -/

/-- C1 (counterexample): the round trip fails for the empty plaintext on the
base64 fallback path.  With encryption unavailable, `storeApiKey(id, "")`
stores `Buffer.from("").toString('base64') = ""`, and `getApiKey`'s
`if (!encryptedBase64) return null` guard treats the stored empty string as
a missing entry, returning `null` rather than `""`. -/
theorem empty_key_roundtrip_fails :
    (storeApiKey cryptoFallback [] "anthropic-1" "").1 = true ∧
    getApiKey cryptoFallback
      (storeApiKey cryptoFallback [] "anthropic-1" "").2 "anthropic-1" =
      none :=
  ⟨rfl, rfl⟩

/-- C1 (amended): for every provider id and every plaintext that is
non-empty (or stored with platform encryption available), `storeApiKey`
followed by `getApiKey` returns the original plaintext — assuming the
external codec pair in use is inverse and encoding preserves non-emptiness
— and a second `storeApiKey` for the same id overwrites the prior value, so
`getApiKey` returns the most recently stored plaintext.  The empty plaintext
in fallback mode is the one exception (see the counterexample). -/
theorem store_then_get_roundtrip (c : Crypto) (ks : KeyStore)
    (providerId apiKey oldKey : String)
    (hb : ∀ s, c.b64decode (c.b64encode s) = s)
    (hbne : ∀ s, s ≠ "" → c.b64encode s ≠ "")
    (hd : ∀ s, c.decryptString (c.encryptString s) = Except.ok s)
    (hene : ∀ s, c.encryptString s ≠ "")
    (hkey : apiKey ≠ "" ∨ c.encryptionAvailable = true) :
    getApiKey c (storeApiKey c ks providerId apiKey).2 providerId =
      some apiKey ∧
    getApiKey c
      (storeApiKey c (storeApiKey c ks providerId oldKey).2
        providerId apiKey).2 providerId = some apiKey :=
  ⟨getApiKey_storeApiKey c ks providerId apiKey hb hbne hd hene hkey,
   getApiKey_storeApiKey c (storeApiKey c ks providerId oldKey).2
     providerId apiKey hb hbne hd hene hkey⟩

/-- C1 (witness): the round trip and overwrite at concrete inputs, under
`cryptoDemo` (encryption available). -/
theorem store_then_get_roundtrip_witness :
    getApiKey cryptoDemo
      (storeApiKey cryptoDemo [] "anthropic-1" "sk-test-1234").2
      "anthropic-1" = some "sk-test-1234" ∧
    getApiKey cryptoDemo
      (storeApiKey cryptoDemo
        (storeApiKey cryptoDemo [] "anthropic-1" "old-key").2
        "anthropic-1" "sk-test-1234").2 "anthropic-1" =
      some "sk-test-1234" :=
  store_then_get_roundtrip cryptoDemo [] "anthropic-1" "sk-test-1234"
    "old-key" (fun _ => rfl) (fun _ h => h) (fun _ => rfl)
    (fun _ h => List.noConfusion (congrArg String.data h))
    (Or.inr rfl)

/-! ## Claim C3 -/

/-- C3: after `deleteProvider(id)` succeeds, the provider config for `id` is
gone, `hasApiKey(id)` is false, the key deletion precedes the config
deletion in the performed action sequence, the default pointer is cleared
when it referenced `id`, and is untouched when it referenced another id. -/
theorem delete_provider_clears_key_and_default (ks : KeyStore)
    (ps : ProviderStore) (providerId : String) :
    (deleteProvider ks ps providerId).1 = true ∧
    getProvider (deleteProvider ks ps providerId).2.2 providerId = none ∧
    hasApiKey (deleteProvider ks ps providerId).2.1 providerId = false ∧
    (ps.defaultProvider = some providerId →
      getDefaultProvider (deleteProvider ks ps providerId).2.2 = none) ∧
    (∀ other, ps.defaultProvider = some other → other ≠ providerId →
      getDefaultProvider (deleteProvider ks ps providerId).2.2 =
        some other) ∧
    List.take 2 (deleteProviderTrace ps providerId) =
      [StoreAction.deleteKey providerId,
       StoreAction.deleteConfig providerId] := by
  refine ⟨rfl, ?_, ?_, ?_, ?_, ?_⟩
  · simp [deleteProvider, getProvider, lookupEntry_eraseEntry_self]
  · simp [deleteProvider, deleteApiKey, hasApiKey,
      lookupEntry_eraseEntry_self]
  · intro h
    simp [deleteProvider, getDefaultProvider, h]
  · intro other h hne
    simp [deleteProvider, getDefaultProvider, h, hne]
  · simp [deleteProviderTrace]

/-- C3 (witness): deleting a provider that is the default, and deleting one
that is not, at concrete stores. -/
theorem delete_provider_clears_key_and_default_witness :
    getProvider (deleteProvider [("anthropic-1", "stored")]
      { providers := [("anthropic-1", configDemo)],
        defaultProvider := some "anthropic-1" } "anthropic-1").2.2
      "anthropic-1" = none ∧
    getDefaultProvider (deleteProvider [("anthropic-1", "stored")]
      { providers := [("anthropic-1", configDemo)],
        defaultProvider := some "anthropic-1" } "anthropic-1").2.2 = none ∧
    getDefaultProvider (deleteProvider [("anthropic-1", "stored")]
      { providers := [("anthropic-1", configDemo)],
        defaultProvider := some "other-2" } "anthropic-1").2.2 =
      some "other-2" :=
  ⟨(delete_provider_clears_key_and_default [("anthropic-1", "stored")]
      { providers := [("anthropic-1", configDemo)],
        defaultProvider := some "anthropic-1" } "anthropic-1").2.1,
   (delete_provider_clears_key_and_default [("anthropic-1", "stored")]
      { providers := [("anthropic-1", configDemo)],
        defaultProvider := some "anthropic-1" } "anthropic-1").2.2.2.1 rfl,
   (delete_provider_clears_key_and_default [("anthropic-1", "stored")]
      { providers := [("anthropic-1", configDemo)],
        defaultProvider := some "other-2" } "anthropic-1").2.2.2.2.1
     "other-2" rfl (by decide)⟩

/-! ## Claim C6 -/

/-- C6: `deleteApiKey` is idempotent: for every store state it reports
success, a second call also reports success and leaves the store exactly as
after the first, deleting a non-existent key (any `ks` with no entry is an
instance of the universally quantified state) still reports success, and
`hasApiKey` is false afterwards. -/
theorem delete_api_key_idempotent (ks : KeyStore) (providerId : String) :
    (deleteApiKey ks providerId).1 = true ∧
    (deleteApiKey (deleteApiKey ks providerId).2 providerId).1 = true ∧
    (deleteApiKey (deleteApiKey ks providerId).2 providerId).2 =
      (deleteApiKey ks providerId).2 ∧
    hasApiKey (deleteApiKey ks providerId).2 providerId = false := by
  refine ⟨rfl, rfl, ?_, ?_⟩
  · simp [deleteApiKey, eraseEntry_idem]
  · simp [deleteApiKey, hasApiKey, lookupEntry_eraseEntry_self]

/-! ## Claim C7 -/

/-- C7 (counterexample): the no-throw guarantee does not cover `hasApiKey`
and `listStoredKeyIds`: neither has a `try/catch` in the source, so a
backing-store failure propagates to the caller instead of becoming a
boolean or absent result. -/
theorem has_api_key_propagates_store_failure :
    hasApiKeyE (Except.error "store read failed") "anthropic-1" =
      Except.error "store read failed" ∧
    listStoredKeyIdsE (Except.error "store read failed") =
      Except.error "store read failed" :=
  ⟨rfl, rfl⟩

/-- C7 (amended): `storeApiKey`, `getApiKey`, `deleteApiKey` and
`deleteProvider` catch every internal storage or retrieval failure and
convert it to `false` or an absent result; `getApiKey` returns absent (not
an error) when no entry exists, and a decryption failure also surfaces as
absent.  The guarantee does not extend to `hasApiKey` or
`listStoredKeyIds`, which have no catch and propagate backing-store
failures (see the counterexample). -/
theorem storage_failures_caught_where_wrapped (c : Crypto)
    (st : Except String KeyStore) (pst : Except String ProviderStore)
    (ks : KeyStore) (providerId apiKey stored m : String) :
    (∃ r, storeApiKeyE c st providerId apiKey = Except.ok r) ∧
    (∃ r, getApiKeyE c st providerId = Except.ok r) ∧
    (∃ b, deleteApiKeyE st providerId = Except.ok b) ∧
    (∃ b, deleteProviderE st pst providerId = Except.ok b) ∧
    (lookupEntry ks providerId = none → getApiKey c ks providerId = none) ∧
    (lookupEntry ks providerId = some stored → stored ≠ "" →
      c.encryptionAvailable = true → c.decryptString stored = Except.error m →
      getApiKey c ks providerId = none) := by
  refine ⟨?_, ?_, ?_, ?_, ?_, ?_⟩
  · cases st with
    | error e => exact ⟨(false, []), rfl⟩
    | ok ks' => exact ⟨storeApiKey c ks' providerId apiKey, rfl⟩
  · cases st with
    | error e => exact ⟨none, rfl⟩
    | ok ks' => exact ⟨getApiKey c ks' providerId, rfl⟩
  · cases st with
    | error e => exact ⟨false, rfl⟩
    | ok ks' => exact ⟨true, rfl⟩
  · cases st with
    | error e =>
      cases pst with
      | error e' => exact ⟨false, rfl⟩
      | ok ps => exact ⟨true, rfl⟩
    | ok ks' =>
      cases pst with
      | error e' => exact ⟨false, rfl⟩
      | ok ps => exact ⟨(deleteProvider ks' ps providerId).1, rfl⟩
  · intro h
    simp [getApiKey, h]
  · intro h hne henc hdec
    simp [getApiKey, h, hne, henc, hdec]

/-- C7 (witness): the caught paths at concrete inputs: failing backing
stores yield `ok` results from the wrapped operations (including
`deleteProvider`), a missing entry yields absent, and a decryption failure
yields absent. -/
theorem storage_failures_caught_where_wrapped_witness :
    (∃ r, storeApiKeyE cryptoDemo (Except.error "disk full") "anthropic-1"
      "sk-test" = Except.ok r) ∧
    (∃ r, getApiKeyE cryptoDemo (Except.error "disk full") "anthropic-1" =
      Except.ok r) ∧
    (∃ b, deleteProviderE (Except.error "disk full")
      (Except.error "disk full") "anthropic-1" = Except.ok b) ∧
    getApiKey cryptoDemo [] "anthropic-1" = none ∧
    getApiKey
      { cryptoDemo with decryptString := fun _ => Except.error "bad cipher" }
      [("anthropic-1", "garbage")] "anthropic-1" = none :=
  ⟨(storage_failures_caught_where_wrapped cryptoDemo
      (Except.error "disk full") (Except.error "disk full") [] "anthropic-1"
      "sk-test" "garbage" "bad cipher").1,
   (storage_failures_caught_where_wrapped cryptoDemo
      (Except.error "disk full") (Except.error "disk full") [] "anthropic-1"
      "sk-test" "garbage" "bad cipher").2.1,
   (storage_failures_caught_where_wrapped cryptoDemo
      (Except.error "disk full") (Except.error "disk full") [] "anthropic-1"
      "sk-test" "garbage" "bad cipher").2.2.2.1,
   (storage_failures_caught_where_wrapped cryptoDemo
      (Except.error "disk full") (Except.error "disk full") [] "anthropic-1"
      "sk-test" "garbage" "bad cipher").2.2.2.2.1 rfl,
   (storage_failures_caught_where_wrapped
      { cryptoDemo with decryptString := fun _ => Except.error "bad cipher" }
      (Except.error "disk full") (Except.error "disk full")
      [("anthropic-1", "garbage")] "anthropic-1"
      "sk-test" "garbage" "bad cipher").2.2.2.2.2 rfl (by decide) rfl rfl⟩

/-! ## Claim C9 -/

/-- C9: after `storeApiKey(id, "")` succeeds in fallback mode, `hasApiKey`
(the JavaScript `in` test) is true while `getApiKey` returns `null` (the
stored base64 of `""` is `""`, which the falsiness guard treats as missing)
and `getProviderWithKeyInfo` reports `hasKey: false` with `keyMasked: null`
— so `hasApiKey` and `getApiKey`/`getProviderWithKeyInfo` disagree for
empty keys. -/
theorem empty_key_observers_disagree (c : Crypto) (ks : KeyStore)
    (ps : ProviderStore) (providerId : String) (cfg : ProviderConfig)
    (henc : c.encryptionAvailable = false)
    (hb : c.b64encode "" = "")
    (hp : getProvider ps providerId = some cfg) :
    (storeApiKey c ks providerId "").1 = true ∧
    hasApiKey (storeApiKey c ks providerId "").2 providerId = true ∧
    getApiKey c (storeApiKey c ks providerId "").2 providerId = none ∧
    getProviderWithKeyInfo c (storeApiKey c ks providerId "").2 ps
      providerId =
      some { toProviderConfig := cfg, hasKey := false, keyMasked := none } := by
  refine ⟨by simp [storeApiKey, henc], ?_, ?_, ?_⟩
  · simp [storeApiKey, henc, hasApiKey, lookupEntry_setEntry_self]
  · simp [storeApiKey, henc, hb, getApiKey, lookupEntry_setEntry_self]
  · simp [getProviderWithKeyInfo, hp, storeApiKey, henc, hb, getApiKey,
      lookupEntry_setEntry_self]

/-- C9 (witness): the disagreement at a concrete store under
`cryptoFallback`. -/
theorem empty_key_observers_disagree_witness :
    hasApiKey (storeApiKey cryptoFallback [] "anthropic-1" "").2
      "anthropic-1" = true ∧
    getApiKey cryptoFallback
      (storeApiKey cryptoFallback [] "anthropic-1" "").2 "anthropic-1" =
      none ∧
    getProviderWithKeyInfo cryptoFallback
      (storeApiKey cryptoFallback [] "anthropic-1" "").2
      { providers := [("anthropic-1", configDemo)] } "anthropic-1" =
      some { toProviderConfig := configDemo, hasKey := false,
             keyMasked := none } :=
  ⟨(empty_key_observers_disagree cryptoFallback []
      { providers := [("anthropic-1", configDemo)] } "anthropic-1"
      configDemo rfl rfl rfl).2.1,
   (empty_key_observers_disagree cryptoFallback []
      { providers := [("anthropic-1", configDemo)] } "anthropic-1"
      configDemo rfl rfl rfl).2.2.1,
   (empty_key_observers_disagree cryptoFallback []
      { providers := [("anthropic-1", configDemo)] } "anthropic-1"
      configDemo rfl rfl rfl).2.2.2⟩

/-! ## Claim C5 -/

/-- C5: the masked display string keeps the first 4 and last 4 characters
with exactly `length - 8` asterisks in between (and the same total length)
when the plaintext is longer than 12 characters, and is a run of asterisks
of the plaintext's length otherwise. -/
theorem mask_key_shape (apiKey : String) :
    (apiKey.length > 12 →
      (maskKey apiKey).data =
        apiKey.data.take 4 ++ List.replicate (apiKey.length - 8) '*' ++
          apiKey.data.drop (apiKey.length - 4) ∧
      (maskKey apiKey).length = apiKey.length) ∧
    (apiKey.length ≤ 12 →
      (maskKey apiKey).data = List.replicate apiKey.length '*') := by
  constructor
  · intro h
    have hdata : (maskKey apiKey).data =
        apiKey.data.take 4 ++ List.replicate (apiKey.length - 8) '*' ++
          apiKey.data.drop (apiKey.length - 4) := by
      simp [maskKey, h, String.data_append]
    refine ⟨hdata, ?_⟩
    have hlen : apiKey.length = apiKey.data.length := rfl
    have hm : (maskKey apiKey).length = (maskKey apiKey).data.length := rfl
    rw [hm, hdata]
    simp only [List.length_append, List.length_take, List.length_replicate,
      List.length_drop]
    omega
  · intro h
    simp [maskKey, Nat.not_lt.mpr h]

/-- C5 (witness): a 16-character key masks to its first 4 characters,
exactly 8 asterisks, and its last 4 characters, keeping length 16; a
6-character key masks to 6 asterisks. -/
theorem mask_key_shape_witness :
    ((maskKey "sk-test-12345678").data =
      "sk-test-12345678".data.take 4 ++ List.replicate 8 '*' ++
        "sk-test-12345678".data.drop 12 ∧
      (maskKey "sk-test-12345678").length = 16) ∧
    (maskKey "secret").data = List.replicate 6 '*' :=
  ⟨(mask_key_shape "sk-test-12345678").1 (by decide),
   (mask_key_shape "secret").2 (by decide)⟩

/-! ## Claim C2 -/

/-- C2 (counterexample): the status field does not follow exactly the
specified step relation.  The listeners apply each observed event from any
state, so after reaching `downloaded` a further check event (a user
re-check) moves the status to `checking` — a transition the specified
relation does not contain, which only allows a check from `idle`,
`not-available` or `error`. -/
theorem updater_step_outside_spec_relation :
    (runFrom initialStatus
      [UpdaterEvent.checkingForUpdate,
       UpdaterEvent.updateAvailable infoDemo,
       UpdaterEvent.downloadProgress progressDemo,
       UpdaterEvent.updateDownloaded infoDemo]).status =
      StatusKind.downloaded ∧
    (runFrom initialStatus
      [UpdaterEvent.checkingForUpdate,
       UpdaterEvent.updateAvailable infoDemo,
       UpdaterEvent.downloadProgress progressDemo,
       UpdaterEvent.updateDownloaded infoDemo,
       UpdaterEvent.checkingForUpdate]).status = StatusKind.checking ∧
    specStep StatusKind.downloaded UpdaterEvent.checkingForUpdate
      StatusKind.checking = false := by
  decide

/-- C2 (amended): every transition of the specified relation is realized by
the controller — a check event from `idle`/`not-available`/`error` yields
`checking`; from `checking`, found yields `available` and none-found yields
`not-available`; from `available` the first progress event (the observable
effect of a download request) yields `downloading`; progress events in
`downloading` keep the status and update only the progress payload;
completion in `downloading` yields `downloaded`; a failure event from any
state yields `error` carrying the message — and no UI request handler sets
the status directly.  However, the listeners apply events unconditionally,
so transitions outside the relation also occur (see the counterexample). -/
theorem updater_realizes_spec_transitions (s : UpdateStatus)
    (i : UpdateInfo) (p : ProgressInfo) (m : String) :
    (s.status = StatusKind.idle ∨ s.status = StatusKind.notAvailable ∨
        s.status = StatusKind.error →
      (applyEvent s UpdaterEvent.checkingForUpdate).status =
        StatusKind.checking) ∧
    (s.status = StatusKind.checking →
      (applyEvent s (UpdaterEvent.updateAvailable i)).status =
        StatusKind.available) ∧
    (s.status = StatusKind.checking →
      (applyEvent s (UpdaterEvent.updateNotAvailable i)).status =
        StatusKind.notAvailable) ∧
    (s.status = StatusKind.available →
      (applyEvent s (UpdaterEvent.downloadProgress p)).status =
        StatusKind.downloading) ∧
    (s.status = StatusKind.downloading →
      applyEvent s (UpdaterEvent.downloadProgress p) =
        { s with progress := some p }) ∧
    (s.status = StatusKind.downloading →
      (applyEvent s (UpdaterEvent.updateDownloaded i)).status =
        StatusKind.downloaded) ∧
    ((applyEvent s (UpdaterEvent.error m)).status = StatusKind.error ∧
      (applyEvent s (UpdaterEvent.error m)).error = some m) ∧
    (∀ req, (handleRequest s req).1 = s) := by
  refine ⟨fun _ => rfl, fun _ => rfl, fun _ => rfl, fun _ => rfl, ?_,
    fun _ => rfl, ⟨rfl, rfl⟩, ?_⟩
  · intro h
    cases s with
    | mk st info prog err =>
      simp only [applyEvent]
      simp_all
  · intro req
    cases req <;> rfl

/-- C2 (witness): the amended transitions at concrete states. -/
theorem updater_realizes_spec_transitions_witness :
    (applyEvent { status := StatusKind.idle }
      UpdaterEvent.checkingForUpdate).status = StatusKind.checking ∧
    (applyEvent { status := StatusKind.checking }
      (UpdaterEvent.updateAvailable infoDemo)).status =
      StatusKind.available ∧
    applyEvent { status := StatusKind.downloading }
      (UpdaterEvent.downloadProgress progressDemo) =
      { status := StatusKind.downloading, progress := some progressDemo } ∧
    (applyEvent { status := StatusKind.downloading }
      (UpdaterEvent.updateDownloaded infoDemo)).status =
      StatusKind.downloaded :=
  ⟨(updater_realizes_spec_transitions { status := StatusKind.idle }
      infoDemo progressDemo "boom").1 (Or.inl rfl),
   (updater_realizes_spec_transitions { status := StatusKind.checking }
      infoDemo progressDemo "boom").2.1 rfl,
   (updater_realizes_spec_transitions { status := StatusKind.downloading }
      infoDemo progressDemo "boom").2.2.2.2.1 rfl,
   (updater_realizes_spec_transitions { status := StatusKind.downloading }
      infoDemo progressDemo "boom").2.2.2.2.2.1 rfl⟩

/-! ## Claim C4 -/

/-- C4 (counterexample): from a reachable state — `idle`, then a progress
event, then a failure — the resulting `error` status retains the progress
payload: `updateStatus` spreads the partial `{ status: 'error', error }`
over the previous record and nothing ever clears `progress`.  A subsequent
check and found-update event likewise produce an `available` status still
carrying the stale progress payload. -/
theorem error_and_available_retain_progress :
    (runFrom initialStatus
      [UpdaterEvent.downloadProgress progressDemo,
       UpdaterEvent.error "download failed"]) =
      { status := StatusKind.error, progress := some progressDemo,
        error := some "download failed" } ∧
    (runFrom initialStatus
      [UpdaterEvent.downloadProgress progressDemo,
       UpdaterEvent.error "download failed",
       UpdaterEvent.checkingForUpdate,
       UpdaterEvent.updateAvailable infoDemo]).progress =
      some progressDemo := by
  decide

/-- C4 (amended): an update-found event sets the status to `available` with
the new info, and a failure event from any state sets it to `error` carrying
the message, but both merges leave the progress payload exactly as it was —
no transition clears it — so the resulting record is progress-free exactly
when no progress event had been observed before. -/
theorem available_and_error_keep_prior_progress (s : UpdateStatus)
    (i : UpdateInfo) (m : String) :
    applyEvent s (UpdaterEvent.updateAvailable i) =
      { s with status := StatusKind.available, info := some i } ∧
    applyEvent s (UpdaterEvent.error m) =
      { s with status := StatusKind.error, error := some m } ∧
    (applyEvent s (UpdaterEvent.updateAvailable i)).progress = s.progress ∧
    (applyEvent s (UpdaterEvent.error m)).progress = s.progress :=
  ⟨rfl, rfl, rfl, rfl⟩

/-! ## Claim C8 -/

/-- C8 (counterexample): with no live main window attached (`mainWindow` is
null until `setMainWindow`, and may be destroyed later), a failure event
still changes the shared status record but `sendToRenderer` drops the
notification, so the status changes without any `update:status-changed`
message being sent. -/
theorem status_change_without_notification :
    (stepWithEmit false initialStatus (UpdaterEvent.error "boom")).1 ≠
      initialStatus ∧
    (stepWithEmit false initialStatus (UpdaterEvent.error "boom")).2 =
      [] := by
  decide

/-- C8 (amended): while a live main window is attached, every observed
updater event updates the single status record and sends exactly one
`update:status-changed` message carrying the entire merged record (the new
status itself, not a delta) in the same step. -/
theorem status_change_emits_whole_record (s : UpdateStatus)
    (e : UpdaterEvent) :
    (stepWithEmit true s e).2 =
      [("update:status-changed", (stepWithEmit true s e).1)] ∧
    (stepWithEmit true s e).1 = applyEvent s e :=
  ⟨rfl, rfl⟩

/-! ## Claim C10 -/

/-- C10: the `update:check` IPC handler always resolves with
`success: true`: `AppUpdater.checkForUpdates` catches every underlying
failure and returns null instead of rethrowing (its result is always `ok`),
so the handler's `{ success: false, error }` branch is unreachable and the
reply never carries an error. -/
theorem update_check_always_succeeds
    (underlying : Except String (Option UpdateInfo)) :
    (∃ r, checkForUpdates underlying = Except.ok r) ∧
    (handleUpdateCheck underlying).success = true ∧
    (handleUpdateCheck underlying).error = none ∧
    (handleRequest initialStatus (UpdateRequest.check underlying)).2 =
      some (handleUpdateCheck underlying) := by
  cases underlying with
  | ok result => exact ⟨⟨result, rfl⟩, rfl, rfl, rfl⟩
  | error e => exact ⟨⟨none, rfl⟩, rfl, rfl, rfl⟩

end ClawX
